import Mathlib

/-!
Verification development for the GiftReservoir claim subsystem.

Shallow embedding of the server-side code:
  * `shared/schema.ts`        — the relational schema (tables `users`,
    `wishlists`, `items`, `claims`) with its uniqueness constraints and
    `onDelete: "cascade"` foreign keys, and the zod insert schemas whose
    `.omit(...)` allow-lists determine which fields a request body may carry.
  * `server/storage.ts` (`DatabaseStorage`) — the store operations; the
    relational store is modelled as lists of rows, an insert that would hit a
    uniqueness constraint returns `StoreErr.uniqueViolation` (the embedding of
    the store rejecting the statement), deletes replay the schema's cascades.
  * `server/routes.ts` — the Express route handlers. Each handler is split
    into a `...Core` function on the already-parsed integer id and a wrapper
    that performs the `parseInt` guard on the raw path parameter.

Timestamps (`defaultNow()` / `new Date()`) are passed in as an explicit `now`
parameter; identity-column ids are drawn from per-table counters in the state.
The `randomBytes(32).toString("hex")` share-token generation is
nondeterministic and is therefore passed in as an explicit `token` parameter.
Foreign-key checking on inserts is not modelled (every insert performed by the
routes follows an existence check); the uniqueness constraints, which the
claims are about, are.
-/

namespace GiftReservoir

/-- Row of the `users` table (`shared/schema.ts`): id plus nullable profile
columns. -/
structure User where
  id : String
  email : Option String
  firstName : Option String
  lastName : Option String
  profileImageUrl : Option String
  createdAt : Option Nat
  updatedAt : Option Nat
deriving Repr, DecidableEq

/-- Row of the `wishlists` table: identity `id`, owner `userId`, `name`,
nullable `description`, unique `shareToken`, timestamps. -/
structure Wishlist where
  id : Int
  userId : String
  name : String
  description : Option String
  shareToken : String
  createdAt : Nat
  updatedAt : Nat
deriving Repr, DecidableEq

/-- Row of the `items` table: identity `id`, foreign key `wishlistId`
(cascade on delete), `name`, nullable `url`/`description`/`price`/`imageUrl`,
timestamps. -/
structure Item where
  id : Int
  wishlistId : Int
  name : String
  url : Option String
  description : Option String
  price : Option String
  imageUrl : Option String
  createdAt : Nat
  updatedAt : Nat
deriving Repr, DecidableEq

/-- Row of the `claims` table: identity `id`, foreign key `itemId` with a
UNIQUE constraint (cascade on delete), claimer `userId`, `claimedAt`. -/
structure Claim where
  id : Int
  itemId : Int
  userId : String
  claimedAt : Nat
deriving Repr, DecidableEq

/-- The relational store: one list of rows per table, plus the next value of
each identity column. -/
structure DB where
  users : List User
  wishlists : List Wishlist
  items : List Item
  claims : List Claim
  nextWishlistId : Int
  nextItemId : Int
  nextClaimId : Int
deriving Repr, DecidableEq

/-- A store-level statement failure: the store rejecting an insert that
violates a uniqueness constraint. -/
inductive StoreErr where
  | uniqueViolation
deriving Repr, DecidableEq

/-- An HTTP-level response: success with a status code and payload, or an
error with a status code and message body. -/
inductive Resp (α : Type) where
  | ok (code : Nat) (payload : α)
  | err (code : Nat) (msg : String)
deriving Repr, DecidableEq

/-- Payload of `insertWishlistSchema` (`shared/schema.ts`): after
`.omit({id, userId, shareToken, createdAt, updatedAt})` a request body can
only carry `name` and optional `description`. -/
structure WishlistBody where
  name : String
  description : Option String
deriving Repr, DecidableEq

/-- Payload of `insertWishlistSchema.partial()`: each allow-listed field is
optionally present. -/
structure WishlistPatch where
  name : Option String
  description : Option String
deriving Repr, DecidableEq

/-- Payload of `insertItemSchema`: after
`.omit({id, wishlistId, createdAt, updatedAt})` a request body can only carry
`name`, `url`, `description`, `price`, `imageUrl`. -/
structure ItemBody where
  name : String
  url : Option String
  description : Option String
  price : Option String
  imageUrl : Option String
deriving Repr, DecidableEq

/-- Payload of `insertItemSchema.partial()`: each allow-listed field is
optionally present. -/
structure ItemPatch where
  name : Option String
  url : Option String
  description : Option String
  price : Option String
  imageUrl : Option String
deriving Repr, DecidableEq

/-! ### Store operations (`DatabaseStorage` in `server/storage.ts`) -/

/-- Embeds `getWishlist(id, userId?)`: select scoped by id, and by owner when a
`userId` is supplied. -/
def getWishlist (db : DB) (id : Int) (userId : Option String) : Option Wishlist :=
  match userId with
  | some u => db.wishlists.find? (fun w => w.id == id && w.userId == u)
  | none => db.wishlists.find? (fun w => w.id == id)

/-- Embeds `getWishlistByShareToken(token)`: exact-match select on `shareToken`. -/
def getWishlistByShareToken (db : DB) (token : String) : Option Wishlist :=
  db.wishlists.find? (fun w => w.shareToken == token)

/-- Embeds `createWishlist(data)`: single insert of the data spread together with the token, carrying the
identity id and `defaultNow()` timestamps; the store rejects the insert when
the token violates the UNIQUE constraint on `shareToken`. The random token is
an explicit parameter. -/
def createWishlist (db : DB) (userId name : String) (description : Option String)
    (shareToken : String) (now : Nat) : Except StoreErr (Wishlist × DB) :=
  if db.wishlists.any (fun w => w.shareToken == shareToken) then
    .error .uniqueViolation
  else
    let w : Wishlist :=
      { id := db.nextWishlistId, userId := userId, name := name,
        description := description, shareToken := shareToken,
        createdAt := now, updatedAt := now }
    .ok (w, { db with wishlists := db.wishlists ++ [w],
                      nextWishlistId := db.nextWishlistId + 1 })

/-- Applying `.set({...data, updatedAt: new Date()})` to a wishlist row:
present patch fields overwrite, absent fields are untouched, `updatedAt` is
always refreshed. -/
def applyWishlistPatch (w : Wishlist) (p : WishlistPatch) (now : Nat) : Wishlist :=
  { w with
    name := p.name.getD w.name,
    description := match p.description with
      | some d => some d
      | none => w.description,
    updatedAt := now }

/-- Embeds `updateWishlist(id, userId, data)`: UPDATE scoped by `id AND userId`,
RETURNING the updated row (if any). -/
def updateWishlist (db : DB) (id : Int) (userId : String) (p : WishlistPatch)
    (now : Nat) : Option Wishlist × DB :=
  let hit := fun (w : Wishlist) => w.id == id && w.userId == userId
  let updated := db.wishlists.map (fun w => if hit w then applyWishlistPatch w p now else w)
  ((db.wishlists.find? hit).map (fun w => applyWishlistPatch w p now),
   { db with wishlists := updated })

/-- The DELETE condition of `deleteWishlist`: `id AND userId`. -/
def wlHit (wid : Int) (u : String) (w : Wishlist) : Bool :=
  w.id == wid && w.userId == u

/-- Ids of the wishlist rows a `deleteWishlist` statement removes. -/
def deletedWishlistIds (db : DB) (wid : Int) (u : String) : List Int :=
  (db.wishlists.filter (wlHit wid u)).map (·.id)

/-- Ids of the item rows the wishlist-delete cascade removes. -/
def cascadedItemIds (db : DB) (wid : Int) (u : String) : List Int :=
  (db.items.filter (fun i => (deletedWishlistIds db wid u).contains i.wishlistId)).map (·.id)

/-- Embeds `deleteWishlist(id, userId)`: DELETE scoped by `id AND userId`, returning
whether a row was deleted; the schema's `onDelete: "cascade"` removes the
deleted wishlist's items and those items' claims. -/
def deleteWishlist (db : DB) (id : Int) (userId : String) : Bool × DB :=
  (!(db.wishlists.filter (wlHit id userId)).isEmpty,
   { db with
     wishlists := db.wishlists.filter (fun w => !wlHit id userId w),
     items := db.items.filter
       (fun i => !(deletedWishlistIds db id userId).contains i.wishlistId),
     claims := db.claims.filter
       (fun c => !(cascadedItemIds db id userId).contains c.itemId) })

/-- Embeds `getItem(id)`: select by item id. -/
def getItem (db : DB) (id : Int) : Option Item :=
  db.items.find? (fun i => i.id == id)

/-- Embeds `createItem(data)`: insert with identity id and `defaultNow()`
timestamps. -/
def createItem (db : DB) (wishlistId : Int) (b : ItemBody) (now : Nat) : Item × DB :=
  let i : Item :=
    { id := db.nextItemId, wishlistId := wishlistId, name := b.name,
      url := b.url, description := b.description, price := b.price,
      imageUrl := b.imageUrl, createdAt := now, updatedAt := now }
  (i, { db with items := db.items ++ [i], nextItemId := db.nextItemId + 1 })

/-- The ownership subquery
`items.wishlistId IN (SELECT id FROM wishlists WHERE userId = u)`. -/
def itemOwnedBy (db : DB) (i : Item) (u : String) : Bool :=
  db.wishlists.any (fun w => w.userId == u && w.id == i.wishlistId)

/-- Applying `.set({...data, updatedAt: new Date()})` to an item row. -/
def applyItemPatch (i : Item) (p : ItemPatch) (now : Nat) : Item :=
  { i with
    name := p.name.getD i.name,
    url := match p.url with | some v => some v | none => i.url,
    description := match p.description with | some v => some v | none => i.description,
    price := match p.price with | some v => some v | none => i.price,
    imageUrl := match p.imageUrl with | some v => some v | none => i.imageUrl,
    updatedAt := now }

/-- Embeds `updateItem(id, wishlistUserId, data)`: UPDATE scoped by the item id and
the ownership subquery, RETURNING the updated row. -/
def updateItem (db : DB) (id : Int) (wishlistUserId : String) (p : ItemPatch)
    (now : Nat) : Option Item × DB :=
  let hit := fun (i : Item) => i.id == id && itemOwnedBy db i wishlistUserId
  let updated := db.items.map (fun i => if hit i then applyItemPatch i p now else i)
  ((db.items.find? hit).map (fun i => applyItemPatch i p now),
   { db with items := updated })

/-- The DELETE condition of `deleteItem`: the item id and the ownership
subquery. -/
def itHit (db : DB) (iid : Int) (u : String) (i : Item) : Bool :=
  i.id == iid && itemOwnedBy db i u

/-- Ids of the item rows a `deleteItem` statement removes. -/
def deletedItemIds (db : DB) (iid : Int) (u : String) : List Int :=
  (db.items.filter (itHit db iid u)).map (·.id)

/-- Embeds `deleteItem(id, wishlistUserId)`: DELETE scoped by the item id and the
ownership subquery; the cascade removes the deleted item's claim rows. -/
def deleteItem (db : DB) (id : Int) (wishlistUserId : String) : Bool × DB :=
  (!(db.items.filter (itHit db id wishlistUserId)).isEmpty,
   { db with
     items := db.items.filter (fun i => !itHit db id wishlistUserId i),
     claims := db.claims.filter
       (fun c => !(deletedItemIds db id wishlistUserId).contains c.itemId) })

/-- Embeds `getClaim(itemId)`: select by `itemId`. -/
def getClaim (db : DB) (itemId : Int) : Option Claim :=
  db.claims.find? (fun c => c.itemId == itemId)

/-- Embeds `createClaim(data)`: single insert, subject to the UNIQUE constraint on
`claims.itemId` — the store rejects the insert when a claim row for the item
already exists. -/
def createClaim (db : DB) (itemId : Int) (userId : String) (now : Nat) :
    Except StoreErr (Claim × DB) :=
  if db.claims.any (fun c => c.itemId == itemId) then
    .error .uniqueViolation
  else
    let c : Claim := { id := db.nextClaimId, itemId := itemId, userId := userId,
                       claimedAt := now }
    .ok (c, { db with claims := db.claims ++ [c],
                      nextClaimId := db.nextClaimId + 1 })

/-- Embeds `deleteClaim(itemId, userId)`: DELETE scoped by `itemId AND userId`,
returning whether a row was deleted. -/
def deleteClaim (db : DB) (itemId : Int) (userId : String) : Bool × DB :=
  let kept := db.claims.filter (fun c => !(c.itemId == itemId && c.userId == userId))
  (kept.length != db.claims.length, { db with claims := kept })

/-! ### JavaScript `parseInt` (no radix argument), as the routes call it -/

/-- Value of a character as a digit of the given radix (ECMAScript digit
alphabet: `0`-`9` then `a`-`z`/`A`-`Z`), `none` when the character is no
digit of that radix. Radix is 10 or 16 here, so letters past `f` never
qualify. -/
def digitValueIn (radix : Nat) (c : Char) : Option Nat :=
  let n := c.toNat
  let v : Option Nat :=
    if 48 ≤ n ∧ n ≤ 57 then some (n - 48)
    else if 97 ≤ n ∧ n ≤ 122 then some (n - 87)
    else if 65 ≤ n ∧ n ≤ 90 then some (n - 55)
    else none
  match v with
  | some d => if d < radix then some d else none
  | none => none

/-- Longest prefix of digits valid in the given radix, as digit values. -/
def takeDigits (radix : Nat) : List Char → List Nat
  | [] => []
  | c :: rest =>
    match digitValueIn radix c with
    | some v => v :: takeDigits radix rest
    | none => []

/-- ECMAScript `parseInt(string)` with no radix argument: trim leading
whitespace, read an optional sign, switch to radix 16 after a `0x`/`0X`
prefix (radix 10 otherwise), then interpret the longest prefix of valid
digits; `none` stands for `NaN` (no digits). -/
def jsParseInt (s : String) : Option Int :=
  let cs := s.toList.dropWhile Char.isWhitespace
  let signed : Int × List Char :=
    match cs with
    | '-' :: rest => (-1, rest)
    | '+' :: rest => (1, rest)
    | _ => (1, cs)
  let based : Nat × List Char :=
    match signed.2 with
    | '0' :: 'x' :: rest => (16, rest)
    | '0' :: 'X' :: rest => (16, rest)
    | _ => (10, signed.2)
  let ds := takeDigits based.1 based.2
  if ds.isEmpty then none
  else some (signed.1 * (ds.foldl (fun acc d => acc * based.1 + d) 0 : Nat))

/-! ### Route handlers (`server/routes.ts`)

Each handler is split into a `...Core` on the parsed id and a wrapper doing
the `parseInt` / `isNaN` guard. Read-only handlers return a `Resp`; mutating
handlers return a `Resp` together with the resulting store. -/

/-- One row of the item/claim/user left-join payload that
`GET /api/wishlists/:id` and the shared-token route return: the item, and its
claim joined with the claiming user when both exist. -/
def wishlistItemsPayload (db : DB) (wid : Int) :
    List (Item × Option (Claim × User)) :=
  (db.items.filter (fun i => i.wishlistId == wid)).map (fun i =>
    (i, match db.claims.find? (fun c => c.itemId == i.id) with
        | some c => (db.users.find? (fun u => u.id == c.userId)).map (fun u => (c, u))
        | none => none))

/-- Embeds `GET /api/wishlists/:id` after the id guard: owner-scoped lookup, 404 when
it returns nothing, otherwise the wishlist with its joined items. -/
def getWishlistCore (db : DB) (u : String) (wid : Int) :
    Resp (Wishlist × List (Item × Option (Claim × User))) :=
  match getWishlist db wid (some u) with
  | none => .err 404 "Wishlist not found"
  | some w => .ok 200 (w, wishlistItemsPayload db wid)

/-- Embeds `GET /api/wishlists/:id` including the `parseInt` guard on the raw path
parameter. -/
def getWishlistRoute (db : DB) (u : String) (idParam : String) :
    Resp (Wishlist × List (Item × Option (Claim × User))) :=
  match jsParseInt idParam with
  | none => .err 400 "Invalid wishlist ID"
  | some wid => getWishlistCore db u wid

/-- Embeds `GET /api/wishlists/shared/:token`: unauthenticated token lookup. -/
def getSharedWishlistRoute (db : DB) (token : String) :
    Resp (Wishlist × List (Item × Option (Claim × User))) :=
  match getWishlistByShareToken db token with
  | none => .err 404 "Wishlist not found"
  | some w => .ok 200 (w, wishlistItemsPayload db w.id)

/-- Embeds `POST /api/wishlists`: create with a freshly generated token; a store
rejection reaches the handler's catch-all, which answers 500. -/
def createWishlistCore (db : DB) (u : String) (b : WishlistBody)
    (token : String) (now : Nat) : Resp Wishlist × DB :=
  match createWishlist db u b.name b.description token now with
  | .ok (w, db') => (.ok 201 w, db')
  | .error .uniqueViolation => (.err 500 "Failed to create wishlist", db)

/-- Embeds `PATCH /api/wishlists/:id` after the id guard. -/
def updateWishlistCore (db : DB) (u : String) (wid : Int) (p : WishlistPatch)
    (now : Nat) : Resp Wishlist × DB :=
  match updateWishlist db wid u p now with
  | (some w, db') => (.ok 200 w, db')
  | (none, db') => (.err 404 "Wishlist not found", db')

/-- Embeds `PATCH /api/wishlists/:id` including the `parseInt` guard. -/
def updateWishlistRoute (db : DB) (u : String) (idParam : String)
    (p : WishlistPatch) (now : Nat) : Resp Wishlist × DB :=
  match jsParseInt idParam with
  | none => (.err 400 "Invalid wishlist ID", db)
  | some wid => updateWishlistCore db u wid p now

/-- Embeds `DELETE /api/wishlists/:id` after the id guard. -/
def deleteWishlistCore (db : DB) (u : String) (wid : Int) : Resp Unit × DB :=
  match deleteWishlist db wid u with
  | (true, db') => (.ok 204 (), db')
  | (false, db') => (.err 404 "Wishlist not found", db')

/-- Embeds `DELETE /api/wishlists/:id` including the `parseInt` guard. -/
def deleteWishlistRoute (db : DB) (u : String) (idParam : String) :
    Resp Unit × DB :=
  match jsParseInt idParam with
  | none => (.err 400 "Invalid wishlist ID", db)
  | some wid => deleteWishlistCore db u wid

/-- Embeds `POST /api/wishlists/:wishlistId/items` after the id guard: owner check
via the owner-scoped wishlist lookup, then insert. -/
def createItemCore (db : DB) (u : String) (wid : Int) (b : ItemBody)
    (now : Nat) : Resp Item × DB :=
  match getWishlist db wid (some u) with
  | none => (.err 404 "Wishlist not found", db)
  | some _ =>
    let r := createItem db wid b now
    (.ok 201 r.1, r.2)

/-- Embeds `POST /api/wishlists/:wishlistId/items` including the `parseInt` guard. -/
def createItemRoute (db : DB) (u : String) (idParam : String) (b : ItemBody)
    (now : Nat) : Resp Item × DB :=
  match jsParseInt idParam with
  | none => (.err 400 "Invalid wishlist ID", db)
  | some wid => createItemCore db u wid b now

/-- Embeds `PATCH /api/items/:id` after the id guard. -/
def updateItemCore (db : DB) (u : String) (iid : Int) (p : ItemPatch)
    (now : Nat) : Resp Item × DB :=
  match updateItem db iid u p now with
  | (some i, db') => (.ok 200 i, db')
  | (none, db') => (.err 404 "Item not found", db')

/-- Embeds `PATCH /api/items/:id` including the `parseInt` guard. -/
def updateItemRoute (db : DB) (u : String) (idParam : String) (p : ItemPatch)
    (now : Nat) : Resp Item × DB :=
  match jsParseInt idParam with
  | none => (.err 400 "Invalid item ID", db)
  | some iid => updateItemCore db u iid p now

/-- Embeds `DELETE /api/items/:id` after the id guard. -/
def deleteItemCore (db : DB) (u : String) (iid : Int) : Resp Unit × DB :=
  match deleteItem db iid u with
  | (true, db') => (.ok 204 (), db')
  | (false, db') => (.err 404 "Item not found", db')

/-- Embeds `DELETE /api/items/:id` including the `parseInt` guard. -/
def deleteItemRoute (db : DB) (u : String) (idParam : String) : Resp Unit × DB :=
  match jsParseInt idParam with
  | none => (.err 400 "Invalid item ID", db)
  | some iid => deleteItemCore db u iid

/-- The claim handler's ownership test (`routes.ts` lines 346–353): fetch the
item's wishlist unscoped and compare its `userId` with the requester; a
missing wishlist row lets the claim proceed. -/
def ownerOfItemWishlist (db : DB) (item : Item) (u : String) : Bool :=
  match db.wishlists.find? (fun w => w.id == item.wishlistId) with
  | some w => w.userId == u
  | none => false

/-- The tail of the claim handler (`routes.ts` lines 355–364): the
`storage.createClaim` insert; a store rejection of the insert reaches the
handler's catch-all, which answers 500 "Failed to claim item". Runs against
the store state current at insert time, which under a race need not be the
state the existence check saw. -/
def claimInsertStep (db : DB) (u : String) (itemId : Int) (now : Nat) :
    Resp Claim × DB :=
  match createClaim db itemId u now with
  | .ok (c, db') => (.ok 201 c, db')
  | .error .uniqueViolation => (.err 500 "Failed to claim item", db)

/-- Embeds `POST /api/items/:itemId/claim` after the id guard: existence check, then
already-claimed check, then self-claim check, then the insert. -/
def claimCore (db : DB) (u : String) (itemId : Int) (now : Nat) :
    Resp Claim × DB :=
  match getItem db itemId with
  | none => (.err 404 "Item not found", db)
  | some item =>
    match getClaim db itemId with
    | some _ => (.err 400 "Item is already claimed", db)
    | none =>
      if ownerOfItemWishlist db item u then
        (.err 400 "You cannot claim items from your own wishlist", db)
      else
        claimInsertStep db u itemId now

/-- Embeds `POST /api/items/:itemId/claim` including the `parseInt` guard. -/
def claimRoute (db : DB) (u : String) (idParam : String) (now : Nat) :
    Resp Claim × DB :=
  match jsParseInt idParam with
  | none => (.err 400 "Invalid item ID", db)
  | some itemId => claimCore db u itemId now

/-- Embeds `DELETE /api/items/:itemId/claim` after the id guard: a delete scoped by
`itemId AND userId` that touched no row answers 404. -/
def unclaimCore (db : DB) (u : String) (itemId : Int) : Resp Unit × DB :=
  match deleteClaim db itemId u with
  | (true, db') => (.ok 204 (), db')
  | (false, db') => (.err 404 "Claim not found", db')

/-- Embeds `DELETE /api/items/:itemId/claim` including the `parseInt` guard. -/
def unclaimRoute (db : DB) (u : String) (idParam : String) : Resp Unit × DB :=
  match jsParseInt idParam with
  | none => (.err 400 "Invalid item ID", db)
  | some itemId => unclaimCore db u itemId

/-! ### Invariants -/

/-- The UNIQUE constraint on `claims.itemId`: at most one claim row per
item. -/
def claimsUnique (db : DB) : Prop :=
  db.claims.Pairwise (fun a b => a.itemId ≠ b.itemId)

/-- Referential integrity of the two cascading foreign keys: every item
points at an existing wishlist, every claim at an existing item. -/
def refIntegrity (db : DB) : Prop :=
  (∀ i ∈ db.items, ∃ w ∈ db.wishlists, w.id = i.wishlistId) ∧
  (∀ c ∈ db.claims, ∃ i ∈ db.items, i.id = c.itemId)

/-- Modelled from the spec: the reading of the id guard under which a path
parameter is rejected exactly when it "does not begin with a decimal-integer
prefix" — an optional sign followed by at least one decimal digit at the very
start of the string, evaluated to the integer its longest such prefix
denotes. -/
def specDecIntOfString (s : String) : Option Int :=
  let signed : Int × List Char :=
    match s.toList with
    | '-' :: rest => (-1, rest)
    | '+' :: rest => (1, rest)
    | cs => (1, cs)
  let ds := takeDigits 10 signed.2
  if ds.isEmpty then none
  else some (signed.1 * (ds.foldl (fun acc d => acc * 10 + d) 0 : Nat))

/-! ### Concrete fixtures used by witnesses and counterexamples -/

/-- A wishlist owned by alice. -/
def wlA : Wishlist :=
  { id := 1, userId := "alice", name := "Birthday", description := none,
    shareToken := "tok1", createdAt := 0, updatedAt := 0 }

/-- An item on alice's wishlist. -/
def itA : Item :=
  { id := 1, wishlistId := 1, name := "Headphones", url := none,
    description := none, price := none, imageUrl := none,
    createdAt := 0, updatedAt := 0 }

/-- Bob's claim on alice's item. -/
def clB : Claim := { id := 1, itemId := 1, userId := "bob", claimedAt := 1 }

/-- Store with alice's wishlist and item, unclaimed. -/
def dbUnclaimed : DB :=
  { users := [], wishlists := [wlA], items := [itA], claims := [],
    nextWishlistId := 2, nextItemId := 2, nextClaimId := 1 }

/-- Store with alice's wishlist and item, claimed by bob. -/
def dbClaimed : DB := { dbUnclaimed with claims := [clB], nextClaimId := 2 }

/-- A wishlist owned by bob, with id 5. -/
def wlB : Wishlist :=
  { id := 5, userId := "bob", name := "Bobs list", description := none,
    shareToken := "tok5", createdAt := 0, updatedAt := 0 }

/-- Store containing only bob's wishlist. -/
def dbOther : DB :=
  { users := [], wishlists := [wlB], items := [], claims := [],
    nextWishlistId := 6, nextItemId := 1, nextClaimId := 1 }

/-- Empty store. -/
def dbEmpty : DB :=
  { users := [], wishlists := [], items := [], claims := [],
    nextWishlistId := 1, nextItemId := 1, nextClaimId := 1 }

/-! ### Shared lemmas -/

/-- When the `getClaim` existence check finds nothing, no claim row carries
the item id, so the UNIQUE-constraint test on insert is false. -/
theorem claims_any_eq_false_of_getClaim_none {db : DB} {itemId : Int}
    (h : getClaim db itemId = none) :
    db.claims.any (fun c => c.itemId == itemId) = false := by
  simp only [getClaim, List.find?_eq_none] at h
  simp only [List.any_eq_false]
  exact h

/-- The successful insert performed by `createClaim` when no claim row
carries the item id. -/
theorem createClaim_of_getClaim_none {db : DB} {itemId : Int}
    (u : String) (now : Nat) (h : getClaim db itemId = none) :
    createClaim db itemId u now =
      .ok (Claim.mk db.nextClaimId itemId u now,
           { db with claims := db.claims ++ [Claim.mk db.nextClaimId itemId u now],
                     nextClaimId := db.nextClaimId + 1 }) := by
  simp [createClaim, claims_any_eq_false_of_getClaim_none h]

/-- C1: the claim handler applies its checks in the order
not-found (404), already-claimed (400), self-claim (400); when all pass it
inserts exactly one claim row naming the requester and returns it with
status 201. -/
theorem claim_route_checks_in_order (db : DB) (u : String) (itemId : Int) (now : Nat) :
    (getItem db itemId = none →
      claimCore db u itemId now = (.err 404 "Item not found", db))
  ∧ (∀ item, getItem db itemId = some item →
      (∃ c, getClaim db itemId = some c) →
      claimCore db u itemId now = (.err 400 "Item is already claimed", db))
  ∧ (∀ item, getItem db itemId = some item → getClaim db itemId = none →
      ownerOfItemWishlist db item u = true →
      claimCore db u itemId now =
        (.err 400 "You cannot claim items from your own wishlist", db))
  ∧ (∀ item, getItem db itemId = some item → getClaim db itemId = none →
      ownerOfItemWishlist db item u = false →
      claimCore db u itemId now =
        (.ok 201 (Claim.mk db.nextClaimId itemId u now),
         { db with claims := db.claims ++ [Claim.mk db.nextClaimId itemId u now],
                   nextClaimId := db.nextClaimId + 1 })) := by
  refine ⟨?_, ?_, ?_, ?_⟩
  · intro h
    simp [claimCore, h]
  · rintro item hi ⟨c, hc⟩
    simp [claimCore, hi, hc]
  · intro item hi hc hown
    simp [claimCore, hi, hc, hown]
  · intro item hi hc hown
    simp [claimCore, hi, hc, hown, claimInsertStep,
          createClaim_of_getClaim_none u now hc]

/-- Witness for C1: in the store where alice's item 1 is unclaimed, bob's
claim passes every check and inserts the claim row. -/
theorem claim_route_checks_in_order_witness :
    getItem dbUnclaimed 1 = some itA ∧
    getClaim dbUnclaimed 1 = none ∧
    ownerOfItemWishlist dbUnclaimed itA "bob" = false ∧
    claimCore dbUnclaimed "bob" 1 7 =
      (.ok 201 (Claim.mk 1 1 "bob" 7),
       { dbUnclaimed with claims := dbUnclaimed.claims ++ [Claim.mk 1 1 "bob" 7],
                          nextClaimId := 2 }) :=
  ⟨by decide, by decide, by decide,
   (claim_route_checks_in_order dbUnclaimed "bob" 1 7).2.2.2 itA
     (by decide) (by decide) (by decide)⟩

/-- C2 counterexample: alice owns wishlist 1 containing item 1, which bob has
already claimed; alice's claim attempt fails with the already-claimed
message, not the self-claim one — the already-claimed check runs first, so
the failure is not `SelfClaimForbidden` for all such attempts. -/
theorem owner_claim_on_claimed_item_counterexample :
    ownerOfItemWishlist dbClaimed itA "alice" = true ∧
    getItem dbClaimed 1 = some itA ∧
    claimCore dbClaimed "alice" 1 9 = (.err 400 "Item is already claimed", dbClaimed) ∧
    claimCore dbClaimed "alice" 1 9 ≠
      (.err 400 "You cannot claim items from your own wishlist", dbClaimed) := by
  refine ⟨by decide, by decide, by decide, by decide⟩

/-- C2 as amended: a wishlist owner indeed never successfully claims an item
of their own wishlist and no state changes, but the failure is
`SelfClaimForbidden` only when the item is unclaimed; when a claim row
already exists the failure is `AlreadyClaimed`. -/
theorem owner_never_claims_own_item (db : DB) (u : String) (itemId : Int)
    (now : Nat) (item : Item) (hi : getItem db itemId = some item)
    (hown : ownerOfItemWishlist db item u = true) :
    (claimCore db u itemId now).2 = db ∧
    (∀ code c db', claimCore db u itemId now ≠ (.ok code c, db')) ∧
    (getClaim db itemId = none →
      claimCore db u itemId now =
        (.err 400 "You cannot claim items from your own wishlist", db)) ∧
    (∀ c, getClaim db itemId = some c →
      claimCore db u itemId now = (.err 400 "Item is already claimed", db)) := by
  cases hc : getClaim db itemId with
  | none =>
    refine ⟨?_, ?_, ?_, ?_⟩
    · simp [claimCore, hi, hc, hown]
    · intro code c db'
      simp [claimCore, hi, hc, hown]
    · intro _
      simp [claimCore, hi, hc, hown]
    · intro c h
      exact Option.noConfusion h
  | some c0 =>
    refine ⟨?_, ?_, ?_, ?_⟩
    · simp [claimCore, hi, hc]
    · intro code c db'
      simp [claimCore, hi, hc]
    · intro h
      exact Option.noConfusion h
    · intro c h
      simp [claimCore, hi, hc]

/-- Witness for the amended C2: alice attempting to claim her own unclaimed
item fails with the self-claim message. -/
theorem owner_never_claims_own_item_witness :
    getItem dbUnclaimed 1 = some itA ∧
    ownerOfItemWishlist dbUnclaimed itA "alice" = true ∧
    (claimCore dbUnclaimed "alice" 1 9).2 = dbUnclaimed ∧
    (getClaim dbUnclaimed 1 = none →
      claimCore dbUnclaimed "alice" 1 9 =
        (.err 400 "You cannot claim items from your own wishlist", dbUnclaimed)) :=
  ⟨by decide, by decide,
   (owner_never_claims_own_item dbUnclaimed "alice" 1 9 itA (by decide) (by decide)).1,
   (owner_never_claims_own_item dbUnclaimed "alice" 1 9 itA (by decide) (by decide)).2.2.1⟩

/-- C3 counterexample: when the insert step of the claim handler runs against
a store that already holds a claim row for the item (the state a race loser
sees after its existence check passed on the earlier state), the store's
uniqueness rejection reaches the handler's catch-all and the caller receives
500 "Failed to claim item" — not the 400 already-claimed answer. -/
theorem claim_race_reports_500_counterexample :
    claimInsertStep dbClaimed "carol" 1 9 = (.err 500 "Failed to claim item", dbClaimed) ∧
    claimInsertStep dbClaimed "carol" 1 9 ≠ (.err 400 "Item is already claimed", dbClaimed) := by
  refine ⟨by decide, by decide⟩

/-- C3 as amended: a uniqueness rejection of the claim insert is not caught
anywhere between `createClaim` and the handler's catch-all, so the racing
loser is answered with a generic 500 internal error ("Failed to claim item"),
not `AlreadyClaimed`; no claim row is inserted. -/
theorem claim_race_reports_internal_error (db : DB) (u : String) (itemId : Int)
    (now : Nat) (c : Claim) (hc : c ∈ db.claims) (hid : c.itemId = itemId) :
    claimInsertStep db u itemId now = (.err 500 "Failed to claim item", db) := by
  have hany : db.claims.any (fun c => c.itemId == itemId) = true := by
    simp only [List.any_eq_true]
    exact ⟨c, hc, by simp [hid]⟩
  simp [claimInsertStep, createClaim, hany]

/-- Witness for the amended C3: bob's existing claim row on item 1 makes
carol's insert step answer 500. -/
theorem claim_race_reports_internal_error_witness :
    clB ∈ dbClaimed.claims ∧ clB.itemId = 1 ∧
    claimInsertStep dbClaimed "carol" 1 9 = (.err 500 "Failed to claim item", dbClaimed) :=
  ⟨by decide, by decide,
   claim_race_reports_internal_error dbClaimed "carol" 1 9 clB (by decide) (by decide)⟩

/-- C4: the unclaim handler deletes scoped by `itemId AND userId`; it answers
404 with the store unchanged both when no claim row for the item exists and
when the claim row belongs to another user, and deletes the row and answers
204 when the requester holds the claim. -/
theorem unclaim_scoped_delete (db : DB) (u : String) (itemId : Int) :
    ((∀ c ∈ db.claims, c.itemId ≠ itemId) →
      unclaimCore db u itemId = (.err 404 "Claim not found", db))
  ∧ ((∀ c ∈ db.claims, c.itemId = itemId → c.userId ≠ u) →
      unclaimCore db u itemId = (.err 404 "Claim not found", db))
  ∧ ((∃ c ∈ db.claims, c.itemId = itemId ∧ c.userId = u) →
      unclaimCore db u itemId =
        (.ok 204 (),
         { db with claims :=
             db.claims.filter (fun c => !(c.itemId == itemId && c.userId == u)) })) := by
  have hnone : (∀ c ∈ db.claims, c.itemId = itemId → c.userId ≠ u) →
      unclaimCore db u itemId = (.err 404 "Claim not found", db) := by
    intro h
    have hfilter : db.claims.filter (fun c => !(c.itemId == itemId && c.userId == u)) = db.claims := by
      apply List.filter_eq_self.2
      intro c hc
      simp only [Bool.not_eq_true', Bool.and_eq_false_iff]
      rcases eq_or_ne c.itemId itemId with hi | hi
      · exact Or.inr (by simp [h c hc hi])
      · exact Or.inl (by simp [hi])
    simp only [unclaimCore, deleteClaim, hfilter, bne_self_eq_false]
  refine ⟨?_, hnone, ?_⟩
  · intro h
    exact hnone (fun c hc hi _ => h c hc hi)
  · rintro ⟨c, hc, hi, hu⟩
    have hlt : (db.claims.filter (fun c => !(c.itemId == itemId && c.userId == u))).length
        < db.claims.length := by
      apply List.length_filter_lt_length_iff_exists.2
      exact ⟨c, hc, by simp [hi, hu]⟩
    have hne : ((db.claims.filter (fun c => !(c.itemId == itemId && c.userId == u))).length
        != db.claims.length) = true := by
      simp only [bne_iff_ne, ne_eq]
      exact Nat.ne_of_lt hlt
    simp only [unclaimCore, deleteClaim, hne]

/-- Witness for C4: bob deletes his own claim (204 and the row is gone);
carol's attempt on the same row answers 404 and leaves the store
unchanged. -/
theorem unclaim_scoped_delete_witness :
    (∀ c ∈ dbClaimed.claims, c.itemId = 1 → c.userId ≠ "carol") ∧
    unclaimCore dbClaimed "carol" 1 = (.err 404 "Claim not found", dbClaimed) ∧
    (∃ c ∈ dbClaimed.claims, c.itemId = 1 ∧ c.userId = "bob") ∧
    unclaimCore dbClaimed "bob" 1 =
      (.ok 204 (),
       { dbClaimed with claims :=
           dbClaimed.claims.filter (fun c => !(c.itemId == 1 && c.userId == "bob")) }) :=
  ⟨by decide,
   (unclaim_scoped_delete dbClaimed "carol" 1).2.1 (by decide),
   by decide,
   (unclaim_scoped_delete dbClaimed "bob" 1).2.2 (by decide)⟩

/-- C5: reading a wishlist by id answers the identical 404 response whether
the id does not exist at all (first run) or the wishlist exists but belongs
to someone other than the requester (second run): the owner-scoped query
returns nothing in both cases, so the two runs are indistinguishable to the
caller. -/
theorem wishlist_read_denial_indistinguishable (db₁ db₂ : DB) (u : String)
    (id₁ id₂ : Int)
    (h₁ : ∀ w ∈ db₁.wishlists, w.id ≠ id₁)
    (h₂ : ∃ w ∈ db₂.wishlists, w.id = id₂ ∧ w.userId ≠ u)
    (h₂' : ∀ w ∈ db₂.wishlists, w.id = id₂ → w.userId ≠ u) :
    getWishlistCore db₁ u id₁ = .err 404 "Wishlist not found" ∧
    getWishlistCore db₂ u id₂ = .err 404 "Wishlist not found" ∧
    getWishlistCore db₁ u id₁ = getWishlistCore db₂ u id₂ := by
  have e₁ : getWishlist db₁ id₁ (some u) = none := by
    simp only [getWishlist, List.find?_eq_none]
    intro w hw
    simp [h₁ w hw]
  have e₂ : getWishlist db₂ id₂ (some u) = none := by
    simp only [getWishlist, List.find?_eq_none]
    intro w hw
    rcases eq_or_ne w.id id₂ with hi | hi
    · simp [h₂' w hw hi]
    · simp [hi]
  refine ⟨?_, ?_, ?_⟩
  · simp [getWishlistCore, e₁]
  · simp [getWishlistCore, e₂]
  · simp [getWishlistCore, e₁, e₂]

/-- Witness for C5: alice reading id 5 against an empty store and against a
store where wishlist 5 belongs to bob gets the same 404. -/
theorem wishlist_read_denial_indistinguishable_witness :
    (∀ w ∈ dbEmpty.wishlists, w.id ≠ (5 : Int)) ∧
    (∃ w ∈ dbOther.wishlists, w.id = (5 : Int) ∧ w.userId ≠ "alice") ∧
    getWishlistCore dbEmpty "alice" 5 = .err 404 "Wishlist not found" ∧
    getWishlistCore dbEmpty "alice" 5 = getWishlistCore dbOther "alice" 5 :=
  ⟨by decide, by decide,
   (wishlist_read_denial_indistinguishable dbEmpty dbOther "alice" 5 5
     (by decide) (by decide) (by decide)).1,
   (wishlist_read_denial_indistinguishable dbEmpty dbOther "alice" 5 5
     (by decide) (by decide) (by decide)).2.2⟩

/-! ### Preservation of the one-claim-per-item uniqueness invariant (C6) -/

/-- A store whose claim rows form a sublist of a unique store's rows is
unique. -/
theorem claimsUnique_of_sublist {db db' : DB} (h : claimsUnique db)
    (hs : db'.claims.Sublist db.claims) : claimsUnique db' :=
  List.Pairwise.sublist hs h

/-- A store with the same claim rows as a unique store is unique. -/
theorem claimsUnique_of_eq {db db' : DB} (h : claimsUnique db)
    (he : db'.claims = db.claims) : claimsUnique db' := by
  rw [claimsUnique, he]
  exact h

/-- The claim handler preserves uniqueness: it inserts only when the
`itemId` is absent from every existing row. -/
theorem claimsUnique_claimCore {db : DB} (h : claimsUnique db) (u : String)
    (itemId : Int) (now : Nat) : claimsUnique (claimCore db u itemId now).2 := by
  cases hi : getItem db itemId with
  | none => exact claimsUnique_of_eq h (by simp [claimCore, hi])
  | some item =>
    cases hc : getClaim db itemId with
    | some c => exact claimsUnique_of_eq h (by simp [claimCore, hi, hc])
    | none =>
      by_cases hown : ownerOfItemWishlist db item u = true
      · exact claimsUnique_of_eq h (by simp [claimCore, hi, hc, hown])
      · have hstep : claimCore db u itemId now =
            (.ok 201 (Claim.mk db.nextClaimId itemId u now),
             { db with claims := db.claims ++ [Claim.mk db.nextClaimId itemId u now],
                       nextClaimId := db.nextClaimId + 1 }) := by
          simp [claimCore, hi, hc, hown, claimInsertStep,
                createClaim_of_getClaim_none u now hc]
        rw [claimsUnique, hstep]
        refine List.pairwise_append.2 ⟨h, List.pairwise_singleton _ _, ?_⟩
        intro a ha b hb
        rw [List.mem_singleton] at hb
        subst hb
        have hall := claims_any_eq_false_of_getClaim_none hc
        rw [List.any_eq_false] at hall
        simpa using hall a ha

/-- The unclaim handler only filters the claim rows. -/
theorem claimsUnique_unclaimCore {db : DB} (h : claimsUnique db) (u : String)
    (itemId : Int) : claimsUnique (unclaimCore db u itemId).2 := by
  have hsnd : (unclaimCore db u itemId).2 = (deleteClaim db itemId u).2 := by
    unfold unclaimCore
    rcases hd : deleteClaim db itemId u with ⟨b, db'⟩
    cases b <;> simp
  refine claimsUnique_of_sublist h ?_
  rw [hsnd]
  exact List.filter_sublist _

/-- Wishlist creation does not touch the claim rows. -/
theorem claimsUnique_createWishlistCore {db : DB} (h : claimsUnique db)
    (u : String) (b : WishlistBody) (token : String) (now : Nat) :
    claimsUnique (createWishlistCore db u b token now).2 := by
  refine claimsUnique_of_eq h ?_
  unfold createWishlistCore createWishlist
  by_cases ht : db.wishlists.any (fun w => w.shareToken == token) = true
  · simp [ht]
  · simp [ht]

/-- Wishlist update does not touch the claim rows. -/
theorem claimsUnique_updateWishlistCore {db : DB} (h : claimsUnique db)
    (u : String) (wid : Int) (p : WishlistPatch) (now : Nat) :
    claimsUnique (updateWishlistCore db u wid p now).2 := by
  refine claimsUnique_of_eq h ?_
  unfold updateWishlistCore updateWishlist
  rcases hf : db.wishlists.find? (fun w => w.id == wid && w.userId == u) with _ | w <;>
    simp [hf]

/-- Wishlist deletion only filters the claim rows (through the cascade). -/
theorem claimsUnique_deleteWishlistCore {db : DB} (h : claimsUnique db)
    (u : String) (wid : Int) : claimsUnique (deleteWishlistCore db u wid).2 := by
  have hsnd : (deleteWishlistCore db u wid).2 = (deleteWishlist db wid u).2 := by
    unfold deleteWishlistCore
    rcases hd : deleteWishlist db wid u with ⟨b, db'⟩
    cases b <;> simp
  refine claimsUnique_of_sublist h ?_
  rw [hsnd]
  exact List.filter_sublist _

/-- Item creation does not touch the claim rows. -/
theorem claimsUnique_createItemCore {db : DB} (h : claimsUnique db)
    (u : String) (wid : Int) (b : ItemBody) (now : Nat) :
    claimsUnique (createItemCore db u wid b now).2 := by
  refine claimsUnique_of_eq h ?_
  unfold createItemCore
  rcases hw : getWishlist db wid (some u) with _ | w <;> simp [createItem]

/-- Item update does not touch the claim rows. -/
theorem claimsUnique_updateItemCore {db : DB} (h : claimsUnique db)
    (u : String) (iid : Int) (p : ItemPatch) (now : Nat) :
    claimsUnique (updateItemCore db u iid p now).2 := by
  refine claimsUnique_of_eq h ?_
  unfold updateItemCore updateItem
  rcases hf : db.items.find? (fun i => i.id == iid && itemOwnedBy db i u) with _ | i <;>
    simp [hf]

/-- Item deletion only filters the claim rows (through the cascade). -/
theorem claimsUnique_deleteItemCore {db : DB} (h : claimsUnique db)
    (u : String) (iid : Int) : claimsUnique (deleteItemCore db u iid).2 := by
  have hsnd : (deleteItemCore db u iid).2 = (deleteItem db iid u).2 := by
    unfold deleteItemCore
    rcases hd : deleteItem db iid u with ⟨b, db'⟩
    cases b <;> simp
  refine claimsUnique_of_sublist h ?_
  rw [hsnd]
  exact List.filter_sublist _

/-- C6: in every store satisfying the uniqueness constraint each item has at
most one claim row, and every operation of the system — claim, unclaim, and
create/update/delete of wishlists and items — preserves that invariant. -/
theorem claim_uniqueness_invariant_preserved (db : DB) (h : claimsUnique db)
    (u : String) (id : Int) (now : Nat) (wb : WishlistBody) (wp : WishlistPatch)
    (ib : ItemBody) (ip : ItemPatch) (token : String) :
    claimsUnique (claimCore db u id now).2 ∧
    claimsUnique (unclaimCore db u id).2 ∧
    claimsUnique (createWishlistCore db u wb token now).2 ∧
    claimsUnique (updateWishlistCore db u id wp now).2 ∧
    claimsUnique (deleteWishlistCore db u id).2 ∧
    claimsUnique (createItemCore db u id ib now).2 ∧
    claimsUnique (updateItemCore db u id ip now).2 ∧
    claimsUnique (deleteItemCore db u id).2 :=
  ⟨claimsUnique_claimCore h u id now,
   claimsUnique_unclaimCore h u id,
   claimsUnique_createWishlistCore h u wb token now,
   claimsUnique_updateWishlistCore h u id wp now,
   claimsUnique_deleteWishlistCore h u id,
   claimsUnique_createItemCore h u id ib now,
   claimsUnique_updateItemCore h u id ip now,
   claimsUnique_deleteItemCore h u id⟩

/-- Witness for C6: the claimed store satisfies the invariant, and carol's
claim attempt (which fails) and bob's unclaim (which deletes) both preserve
it. -/
theorem claim_uniqueness_invariant_preserved_witness :
    claimsUnique dbClaimed ∧
    claimsUnique (claimCore dbClaimed "carol" 1 9).2 ∧
    claimsUnique (unclaimCore dbClaimed "bob" 1).2 :=
  ⟨by unfold claimsUnique; decide,
   (claim_uniqueness_invariant_preserved dbClaimed (by unfold claimsUnique; decide) "carol" 1 9
      ⟨"n", none⟩ ⟨none, none⟩ ⟨"n", none, none, none, none⟩
      ⟨none, none, none, none, none⟩ "tok9").1,
   (claim_uniqueness_invariant_preserved dbClaimed (by unfold claimsUnique; decide) "bob" 1 9
      ⟨"n", none⟩ ⟨none, none⟩ ⟨"n", none, none, none, none⟩
      ⟨none, none, none, none, none⟩ "tok9").2.1⟩

/-! ### Cascading deletes leave no orphans (C7) -/

/-- Deciding membership in an id list through `contains`. -/
theorem contains_eq_false_iff {l : List Int} {x : Int} :
    l.contains x = false ↔ x ∉ l := by
  rw [← Bool.not_eq_true]
  simp

/-- Every id a wishlist delete removes is the targeted id. -/
theorem mem_deletedWishlistIds_eq {db : DB} {wid : Int} {u : String} :
    ∀ x ∈ deletedWishlistIds db wid u, x = wid := by
  intro x hx
  simp only [deletedWishlistIds, List.mem_map, List.mem_filter] at hx
  rcases hx with ⟨w, ⟨_, hhit⟩, rfl⟩
  simp only [wlHit, Bool.and_eq_true, beq_iff_eq] at hhit
  exact hhit.1

/-- A successful wishlist delete removed a row with the targeted id. -/
theorem wid_mem_deletedWishlistIds {db : DB} {wid : Int} {u : String}
    (hsucc : (deleteWishlist db wid u).1 = true) :
    wid ∈ deletedWishlistIds db wid u := by
  have hne : db.wishlists.filter (wlHit wid u) ≠ [] := by
    simpa [deleteWishlist] using hsucc
  rcases List.exists_mem_of_ne_nil _ hne with ⟨w, hw⟩
  have hhit := (List.mem_filter.1 hw).2
  have hid : w.id = wid := by
    simp only [wlHit, Bool.and_eq_true, beq_iff_eq] at hhit
    exact hhit.1
  exact List.mem_map.2 ⟨w, hw, hid⟩

/-- A successful item delete removed a row with the targeted id. -/
theorem iid_mem_deletedItemIds {db : DB} {iid : Int} {u : String}
    (hsucc : (deleteItem db iid u).1 = true) :
    iid ∈ deletedItemIds db iid u := by
  have hne : db.items.filter (itHit db iid u) ≠ [] := by
    simpa [deleteItem] using hsucc
  rcases List.exists_mem_of_ne_nil _ hne with ⟨i, hi⟩
  have hhit := (List.mem_filter.1 hi).2
  have hid : i.id = iid := by
    simp only [itHit, Bool.and_eq_true, beq_iff_eq] at hhit
    exact hhit.1
  exact List.mem_map.2 ⟨i, hi, hid⟩

/-- C7: a successful wishlist delete removes every item of the deleted
wishlist and every claim on those items, a successful item delete removes the
deleted item's claim rows, and referential integrity (no item without its
wishlist, no claim without its item) is preserved by both. -/
theorem cascade_deletes_leave_no_orphans (db : DB) (u : String) (wid iid : Int)
    (h : refIntegrity db) :
    ((deleteWishlist db wid u).1 = true →
       (∀ i ∈ (deleteWishlist db wid u).2.items, i.wishlistId ≠ wid) ∧
       (∀ c ∈ (deleteWishlist db wid u).2.claims, ∀ i ∈ db.items,
          i.id = c.itemId → i.wishlistId ≠ wid) ∧
       refIntegrity (deleteWishlist db wid u).2)
  ∧ ((deleteItem db iid u).1 = true →
       (∀ c ∈ (deleteItem db iid u).2.claims, c.itemId ≠ iid) ∧
       refIntegrity (deleteItem db iid u).2) := by
  obtain ⟨hIW, hCI⟩ := h
  constructor
  · intro hsucc
    have hwid := wid_mem_deletedWishlistIds hsucc
    refine ⟨?_, ?_, ?_, ?_⟩
    · intro i hi hiw
      have hkeep := (List.mem_filter.1 hi).2
      simp only [Bool.not_eq_true'] at hkeep
      have hnot := contains_eq_false_iff.1 hkeep
      rw [hiw] at hnot
      exact hnot hwid
    · intro c hc i hi hid hiw
      have hkeep := (List.mem_filter.1 hc).2
      simp only [Bool.not_eq_true'] at hkeep
      have hnot := contains_eq_false_iff.1 hkeep
      apply hnot
      refine List.mem_map.2 ⟨i, List.mem_filter.2 ⟨hi, ?_⟩, hid⟩
      rw [hiw]
      exact List.contains_iff_exists_mem_beq.2 ⟨wid, hwid, by simp⟩
    · intro i hi
      obtain ⟨himem, hkeep⟩ := List.mem_filter.1 hi
      obtain ⟨w, hw, hwid'⟩ := hIW i himem
      refine ⟨w, List.mem_filter.2 ⟨hw, ?_⟩, hwid'⟩
      simp only [Bool.not_eq_true']
      cases hb : wlHit wid u w with
      | false => rfl
      | true =>
        exfalso
        have hmem : w.id ∈ deletedWishlistIds db wid u :=
          List.mem_map.2 ⟨w, List.mem_filter.2 ⟨hw, hb⟩, rfl⟩
        simp only [Bool.not_eq_true'] at hkeep
        have hnot := contains_eq_false_iff.1 hkeep
        rw [hwid'] at hmem
        exact hnot hmem
    · intro c hc
      obtain ⟨hcmem, hkeep⟩ := List.mem_filter.1 hc
      obtain ⟨i, hi, hid⟩ := hCI c hcmem
      simp only [Bool.not_eq_true'] at hkeep
      have hnot := contains_eq_false_iff.1 hkeep
      refine ⟨i, List.mem_filter.2 ⟨hi, ?_⟩, hid⟩
      simp only [Bool.not_eq_true']
      apply contains_eq_false_iff.2
      intro hmem
      apply hnot
      simp only [cascadedItemIds, List.mem_map, List.mem_filter]
      exact ⟨i, ⟨hi, by simpa using hmem⟩, hid⟩
  · intro hsucc
    have hiid := iid_mem_deletedItemIds hsucc
    refine ⟨?_, ?_, ?_⟩
    · intro c hc hcid
      have hkeep := (List.mem_filter.1 hc).2
      simp only [Bool.not_eq_true'] at hkeep
      have hnot := contains_eq_false_iff.1 hkeep
      rw [hcid] at hnot
      exact hnot hiid
    · intro i hi
      obtain ⟨himem, _⟩ := List.mem_filter.1 hi
      exact hIW i himem
    · intro c hc
      obtain ⟨hcmem, hkeep⟩ := List.mem_filter.1 hc
      obtain ⟨i, hi, hid⟩ := hCI c hcmem
      simp only [Bool.not_eq_true'] at hkeep
      have hnot := contains_eq_false_iff.1 hkeep
      refine ⟨i, List.mem_filter.2 ⟨hi, ?_⟩, hid⟩
      simp only [Bool.not_eq_true']
      cases hb : itHit db iid u i with
      | false => rfl
      | true =>
        exfalso
        apply hnot
        rw [← hid]
        exact List.mem_map.2 ⟨i, List.mem_filter.2 ⟨hi, hb⟩, rfl⟩

/-- Witness for C7: deleting alice's wishlist 1 from the claimed store
succeeds, leaves no item of wishlist 1 and preserves referential
integrity. -/
theorem cascade_deletes_leave_no_orphans_witness :
    refIntegrity dbClaimed ∧
    (deleteWishlist dbClaimed 1 "alice").1 = true ∧
    (∀ i ∈ (deleteWishlist dbClaimed 1 "alice").2.items, i.wishlistId ≠ 1) ∧
    refIntegrity (deleteWishlist dbClaimed 1 "alice").2 :=
  ⟨by unfold refIntegrity; decide, by decide,
   ((cascade_deletes_leave_no_orphans dbClaimed "alice" 1 1
      (by unfold refIntegrity; decide)).1 (by decide)).1,
   ((cascade_deletes_leave_no_orphans dbClaimed "alice" 1 1
      (by unfold refIntegrity; decide)).1 (by decide)).2.2⟩

/-- C8 counterexample: when the freshly generated token collides with an
existing wishlist's token, the handler answers a generic 500 with the store
unchanged — no `TokenCollision` error is surfaced and no regenerated second
insert happens (the handler performs exactly one insert attempt, so a
collision can never end in a created wishlist). -/
theorem token_collision_no_retry_counterexample :
    getWishlistByShareToken dbUnclaimed "tok1" = some wlA ∧
    createWishlistCore dbUnclaimed "bob" ⟨"New list", none⟩ "tok1" 9 =
      (.err 500 "Failed to create wishlist", dbUnclaimed) ∧
    (createWishlistCore dbUnclaimed "bob" ⟨"New list", none⟩ "tok1" 9).2.wishlists.length
      = dbUnclaimed.wishlists.length := by
  refine ⟨by decide, by decide, by decide⟩

/-- C8 as amended: a uniqueness rejection of the wishlist insert is not
caught anywhere between `createWishlist` and the handler's catch-all, so a
token collision is answered with a generic 500 internal error and the store
is unchanged; there is no `TokenCollision` error, no regeneration and no
retry. -/
theorem token_collision_reports_internal_error (db : DB) (u : String)
    (b : WishlistBody) (token : String) (now : Nat) (w : Wishlist)
    (hw : w ∈ db.wishlists) (ht : w.shareToken = token) :
    createWishlistCore db u b token now =
      (.err 500 "Failed to create wishlist", db) := by
  have hany : db.wishlists.any (fun w => w.shareToken == token) = true := by
    simp only [List.any_eq_true]
    exact ⟨w, hw, by simp [ht]⟩
  simp [createWishlistCore, createWishlist, hany]

/-- Witness for the amended C8: bob's create colliding with alice's token
"tok1" answers 500 and leaves the store unchanged. -/
theorem token_collision_reports_internal_error_witness :
    wlA ∈ dbUnclaimed.wishlists ∧ wlA.shareToken = "tok1" ∧
    createWishlistCore dbUnclaimed "bob" ⟨"B", none⟩ "tok1" 9 =
      (.err 500 "Failed to create wishlist", dbUnclaimed) :=
  ⟨by decide, by decide,
   token_collision_reports_internal_error dbUnclaimed "bob" ⟨"B", none⟩ "tok1" 9
     wlA (by decide) (by decide)⟩

/-! ### PATCH endpoints touch only allow-listed fields (C9) -/

/-- The wishlist fields outside the PATCH allow-list (and `updatedAt`). -/
def wishlistFrame (w : Wishlist) : Int × String × String × Nat :=
  (w.id, w.userId, w.shareToken, w.createdAt)

/-- The item fields outside the PATCH allow-list (and `updatedAt`). -/
def itemFrame (i : Item) : Int × Int × Nat :=
  (i.id, i.wishlistId, i.createdAt)

/-- C9: whatever the validated PATCH body contains, wishlist updates leave
every row's `id`, `ownerUserId`, `shareToken` and `createdAt` unchanged and
item updates leave every row's `id`, `wishlistId` and `createdAt` unchanged —
the zod `.partial()` body can only carry the allow-listed fields
(wishlist: name, description; item: name, url, description, price, imageUrl),
so only those plus `updatedAt` are ever modified. -/
theorem patch_preserves_frame (db : DB) (u : String) (wid iid : Int)
    (wp : WishlistPatch) (ip : ItemPatch) (now : Nat) :
    (updateWishlistCore db u wid wp now).2.wishlists.map wishlistFrame
      = db.wishlists.map wishlistFrame ∧
    (updateItemCore db u iid ip now).2.items.map itemFrame
      = db.items.map itemFrame := by
  constructor
  · have hsnd : (updateWishlistCore db u wid wp now).2
        = (updateWishlist db wid u wp now).2 := by
      unfold updateWishlistCore
      rcases hr : updateWishlist db wid u wp now with ⟨o, db'⟩
      cases o <;> simp
    rw [hsnd]
    show (db.wishlists.map fun w =>
        if w.id == wid && w.userId == u then applyWishlistPatch w wp now else w).map
          wishlistFrame = db.wishlists.map wishlistFrame
    rw [List.map_map]
    apply List.map_congr_left
    intro w _
    simp only [Function.comp_apply]
    by_cases hw : (w.id == wid && w.userId == u) = true
    · rw [if_pos hw]
      rfl
    · rw [if_neg hw]
  · have hsnd : (updateItemCore db u iid ip now).2
        = (updateItem db iid u ip now).2 := by
      unfold updateItemCore
      rcases hr : updateItem db iid u ip now with ⟨o, db'⟩
      cases o <;> simp
    rw [hsnd]
    show (db.items.map fun i =>
        if i.id == iid && itemOwnedBy db i u then applyItemPatch i ip now else i).map
          itemFrame = db.items.map itemFrame
    rw [List.map_map]
    apply List.map_congr_left
    intro i _
    simp only [Function.comp_apply]
    by_cases hi : (i.id == iid && itemOwnedBy db i u) = true
    · rw [if_pos hi]
      rfl
    · rw [if_neg hi]

/-! ### The Invalid-ID guard (C10) -/

/-- The wishlist-read handler past the guard never emits the Invalid-ID
message. -/
theorem getWishlistCore_ne_invalid (db : DB) (u : String) (wid : Int) :
    getWishlistCore db u wid ≠ .err 400 "Invalid wishlist ID" := by
  unfold getWishlistCore
  cases h : getWishlist db wid (some u) <;> simp

/-- The wishlist-update handler past the guard never emits the Invalid-ID
message. -/
theorem updateWishlistCore_fst_ne_invalid (db : DB) (u : String) (wid : Int)
    (p : WishlistPatch) (now : Nat) :
    (updateWishlistCore db u wid p now).1 ≠ .err 400 "Invalid wishlist ID" := by
  unfold updateWishlistCore
  rcases h : updateWishlist db wid u p now with ⟨o, db'⟩
  cases o <;> simp

/-- The wishlist-delete handler past the guard never emits the Invalid-ID
message. -/
theorem deleteWishlistCore_fst_ne_invalid (db : DB) (u : String) (wid : Int) :
    (deleteWishlistCore db u wid).1 ≠ .err 400 "Invalid wishlist ID" := by
  unfold deleteWishlistCore
  rcases h : deleteWishlist db wid u with ⟨b, db'⟩
  cases b <;> simp

/-- The item-create handler past the guard never emits the Invalid-ID
message. -/
theorem createItemCore_fst_ne_invalid (db : DB) (u : String) (wid : Int)
    (b : ItemBody) (now : Nat) :
    (createItemCore db u wid b now).1 ≠ .err 400 "Invalid wishlist ID" := by
  unfold createItemCore
  cases h : getWishlist db wid (some u) <;> simp

/-- The item-update handler past the guard never emits the Invalid-ID
message. -/
theorem updateItemCore_fst_ne_invalid (db : DB) (u : String) (iid : Int)
    (p : ItemPatch) (now : Nat) :
    (updateItemCore db u iid p now).1 ≠ .err 400 "Invalid item ID" := by
  unfold updateItemCore
  rcases h : updateItem db iid u p now with ⟨o, db'⟩
  cases o <;> simp

/-- The item-delete handler past the guard never emits the Invalid-ID
message. -/
theorem deleteItemCore_fst_ne_invalid (db : DB) (u : String) (iid : Int) :
    (deleteItemCore db u iid).1 ≠ .err 400 "Invalid item ID" := by
  unfold deleteItemCore
  rcases h : deleteItem db iid u with ⟨b, db'⟩
  cases b <;> simp

/-- The claim insert step never emits the Invalid-ID message. -/
theorem claimInsertStep_fst_ne_invalid (db : DB) (u : String) (itemId : Int)
    (now : Nat) :
    (claimInsertStep db u itemId now).1 ≠ .err 400 "Invalid item ID" := by
  unfold claimInsertStep
  cases hcc : createClaim db itemId u now with
  | ok r =>
    rcases r with ⟨c, db'⟩
    simp
  | error e =>
    cases e
    simp

/-- The claim handler past the guard never emits the Invalid-ID message
(its 400 answers carry the already-claimed and self-claim messages). -/
theorem claimCore_fst_ne_invalid (db : DB) (u : String) (itemId : Int)
    (now : Nat) :
    (claimCore db u itemId now).1 ≠ .err 400 "Invalid item ID" := by
  cases hi : getItem db itemId with
  | none => simp [claimCore, hi]
  | some item =>
    cases hc : getClaim db itemId with
    | some c => simp [claimCore, hi, hc]
    | none =>
      by_cases hown : ownerOfItemWishlist db item u = true
      · simp [claimCore, hi, hc, hown]
      · have hred : claimCore db u itemId now = claimInsertStep db u itemId now := by
          simp [claimCore, hi, hc, hown]
        rw [hred]
        exact claimInsertStep_fst_ne_invalid db u itemId now

/-- The unclaim handler past the guard never emits the Invalid-ID message. -/
theorem unclaimCore_fst_ne_invalid (db : DB) (u : String) (itemId : Int) :
    (unclaimCore db u itemId).1 ≠ .err 400 "Invalid item ID" := by
  unfold unclaimCore
  rcases h : deleteClaim db itemId u with ⟨b, db'⟩
  cases b <;> simp

/-- C10 counterexample: the path parameter "0x" begins with the
decimal-integer prefix "0" (the spec-worded reading evaluates it to 0), yet
JavaScript `parseInt` treats it as an empty hexadecimal literal and returns
NaN, so the 400 Invalid-ID branch IS taken — the guard condition is not
"does not begin with a decimal-integer prefix". -/
theorem invalid_id_guard_counterexample :
    specDecIntOfString "0x" = some 0 ∧
    jsParseInt "0x" = none ∧
    claimRoute dbUnclaimed "bob" "0x" 5 = (.err 400 "Invalid item ID", dbUnclaimed) ∧
    getWishlistRoute dbUnclaimed "bob" "0x" = .err 400 "Invalid wishlist ID" := by
  refine ⟨by decide, by decide, by decide, by decide⟩

/-- C10 as amended: for every id-taking route the 400 Invalid-ID branch is
taken exactly when JavaScript `parseInt` of the raw path parameter is NaN
(where `parseInt` trims whitespace, reads an optional sign, honours a
`0x`/`0X` hexadecimal prefix and otherwise takes the longest decimal-digit
prefix); a parameter such as "12abc" is not rejected but processed as the id
12 given by its digit prefix. -/
theorem invalid_id_guard_iff_parseInt_nan (db : DB) (u : String) (s : String)
    (ib : ItemBody) (wp : WishlistPatch) (ip : ItemPatch) (now : Nat) :
    (getWishlistRoute db u s = .err 400 "Invalid wishlist ID" ↔ jsParseInt s = none) ∧
    ((updateWishlistRoute db u s wp now).1 = .err 400 "Invalid wishlist ID" ↔ jsParseInt s = none) ∧
    ((deleteWishlistRoute db u s).1 = .err 400 "Invalid wishlist ID" ↔ jsParseInt s = none) ∧
    ((createItemRoute db u s ib now).1 = .err 400 "Invalid wishlist ID" ↔ jsParseInt s = none) ∧
    ((updateItemRoute db u s ip now).1 = .err 400 "Invalid item ID" ↔ jsParseInt s = none) ∧
    ((deleteItemRoute db u s).1 = .err 400 "Invalid item ID" ↔ jsParseInt s = none) ∧
    ((claimRoute db u s now).1 = .err 400 "Invalid item ID" ↔ jsParseInt s = none) ∧
    ((unclaimRoute db u s).1 = .err 400 "Invalid item ID" ↔ jsParseInt s = none) ∧
    jsParseInt "12abc" = some 12 ∧
    claimRoute db u "12abc" now = claimCore db u 12 now ∧
    getWishlistRoute db u "12abc" = getWishlistCore db u 12 := by
  have h12 : jsParseInt "12abc" = some 12 := by decide
  refine ⟨?_, ?_, ?_, ?_, ?_, ?_, ?_, ?_, h12,
    by simp [claimRoute, h12], by simp [getWishlistRoute, h12]⟩
  all_goals
    cases hp : jsParseInt s with
    | none =>
      simp [getWishlistRoute, updateWishlistRoute, deleteWishlistRoute,
            createItemRoute, updateItemRoute, deleteItemRoute, claimRoute,
            unclaimRoute, hp]
    | some i =>
      simp [getWishlistRoute, updateWishlistRoute, deleteWishlistRoute,
            createItemRoute, updateItemRoute, deleteItemRoute, claimRoute,
            unclaimRoute, hp, getWishlistCore_ne_invalid,
            updateWishlistCore_fst_ne_invalid, deleteWishlistCore_fst_ne_invalid,
            createItemCore_fst_ne_invalid, updateItemCore_fst_ne_invalid,
            deleteItemCore_fst_ne_invalid, claimCore_fst_ne_invalid,
            unclaimCore_fst_ne_invalid]

end GiftReservoir
